import Mathlib

/-!
Verification of the billing calculator, money formatter and placeholder
dispatch of `streamlit_app/utils/edit_powerpoint.py`.

Numbers are embedded as exact rationals (`ℚ`); Python's `round(x, 4)` and
the 2-decimal rendering in string formatting are embedded as round-half-to-even
on exact rationals.
-/

/-- Round half to even (bankers rounding) to the nearest integer, as CPython's
builtin `round` does, idealized to exact rational arithmetic. -/
def roundHalfEven (q : ℚ) : ℤ :=
  if q - ⌊q⌋ < 1 / 2 then ⌊q⌋
  else if 1 / 2 < q - ⌊q⌋ then ⌊q⌋ + 1
  else if ⌊q⌋ % 2 = 0 then ⌊q⌋ else ⌊q⌋ + 1

/-- Python's `round(x, 4)`. -/
def round4 (q : ℚ) : ℚ := (roundHalfEven (q * 10000) : ℚ) / 10000

namespace TarifaConstants

/-- `TE_ENEL_CE = 0.27291` (line 26). -/
def TE_ENEL_CE : ℚ := 0.27291

/-- `TUSD_ENEL_CE = 0.44929` (line 27). -/
def TUSD_ENEL_CE : ℚ := 0.44929

/-- `ICMS = 0.2` (line 30). -/
def ICMS : ℚ := 0.2

/-- `PISCOF = 0.05` (line 31). -/
def PISCOF : ℚ := 0.05

end TarifaConstants

/-- The record returned by `TarifaConstants.calculate_derived_rates`
(the five entries of the Python dict, lines 45-51). -/
structure DerivedRates where
  tarifa_de_aplicacao : ℚ
  tarifa_fornecida : ℚ
  tarifa_injetada_compartilhada : ℚ
  tarifa_injetada_real : ℚ
  impostos_n_compoensaveis : ℚ
deriving DecidableEq

/-- `TarifaConstants.calculate_derived_rates` (lines 33-51), parameterized by
the four base constants (the source reads them from the class). -/
def calculate_derived_rates (te tusd icms piscof : ℚ) : DerivedRates :=
  let tarifa_de_aplicacao := te + tusd
  let tarifa_fornecida := round4 (tarifa_de_aplicacao / ((1 - icms) * (1 - piscof)))
  let tarifa_injetada_compartilhada :=
    te / ((1 - icms) * (1 - piscof)) + tusd / (1 - piscof)
  let tarifa_injetada_real := round4 tarifa_injetada_compartilhada
  let impostos_n_compoensaveis := tarifa_fornecida - tarifa_injetada_real
  ⟨tarifa_de_aplicacao, tarifa_fornecida, tarifa_injetada_compartilhada,
    tarifa_injetada_real, impostos_n_compoensaveis⟩

/-- The derived rates at the fixed ENEL CE constants of the source. -/
def enelRates : DerivedRates :=
  calculate_derived_rates TarifaConstants.TE_ENEL_CE TarifaConstants.TUSD_ENEL_CE
    TarifaConstants.ICMS TarifaConstants.PISCOF

/-- `TarifaConstants.get_tarifas` (lines 53-60): returns
`(fornecida, injetada, impostos, injetada_real)`. -/
def get_tarifas : ℚ × ℚ × ℚ × ℚ :=
  (enelRates.tarifa_fornecida, enelRates.tarifa_injetada_compartilhada,
    enelRates.impostos_n_compoensaveis, enelRates.tarifa_injetada_real)

/-- The bill dict returned by `calculate_bill_before` / `calculate_bill_after`
(keys `valor em energia`, `custo mínimo`, `iluminação pública`, `impostos`,
`total`). -/
structure Bill where
  valor_em_energia : ℚ
  custo_minimo : ℚ
  iluminacao_publica : ℚ
  impostos : ℚ
  total : ℚ
deriving DecidableEq

/-- `FinancialCalculator.calculate_bill_before` (lines 169-195).
An unrecognized `disponibility_cost` raises
`ValueError("Custo de disponibilidade inválido.")`, embedded as `Except.error`. -/
def calculate_bill_before (pic : ℚ) (disponibility_cost : String)
    (energy_consumption : ℚ) (n_ucs : ℤ) : Except String Bill :=
  let tarifas_fornecida := get_tarifas.1
  let tarifas_impostos := get_tarifas.2.2.1
  let tarifa_injetada_real := get_tarifas.2.2.2
  let energy_cost := (energy_consumption - (n_ucs : ℚ) * 100) * tarifa_injetada_real
  let finish := fun (min_cost : ℚ) =>
    let public_ilumination_cost := pic
    let taxes := (energy_consumption - (n_ucs : ℚ) * 100) * tarifas_impostos
    let total_bill := energy_cost + min_cost + public_ilumination_cost + taxes
    Bill.mk energy_cost min_cost public_ilumination_cost taxes total_bill
  if disponibility_cost = "Trifásico" then
    .ok (finish (100 * (n_ucs : ℚ) * tarifas_fornecida))
  else if disponibility_cost = "Monofásico" then
    .ok (finish (30 * (n_ucs : ℚ) * tarifas_fornecida))
  else if disponibility_cost = "Bifásico" then
    .ok (finish (50 * (n_ucs : ℚ) * tarifas_fornecida))
  else
    .error "Custo de disponibilidade inválido."

/-- The discounting step of `calculate_bill_after` (lines 201-216), applied to
the bill `enel_bill` computed by `calculate_bill_before`. Note that the
returned `valor em energia` is the undiscounted `energy_cost` (line 211);
only `total` uses `energy_cost_discounted`. -/
def discountBill (enel_bill : Bill) (bill_discount : ℚ) : Bill :=
  let taxes := enel_bill.impostos
  let energy_cost := enel_bill.valor_em_energia
  let min_cost := enel_bill.custo_minimo
  let public_ilumination_cost := enel_bill.iluminacao_publica
  let energy_cost_discounted := energy_cost * (1 - bill_discount / 100)
  let total_bill_discounted :=
    taxes + public_ilumination_cost + min_cost + energy_cost_discounted
  Bill.mk energy_cost min_cost public_ilumination_cost taxes total_bill_discounted

/-- `FinancialCalculator.calculate_bill_after` (lines 197-216): recomputes the
`before` bill and discounts it. -/
def calculate_bill_after (pic : ℚ) (disponibility_cost : String)
    (energy_consumption : ℚ) (n_ucs : ℤ) (bill_discount : ℚ) : Except String Bill :=
  (calculate_bill_before pic disponibility_cost energy_consumption n_ucs).map
    (fun enel_bill => discountBill enel_bill bill_discount)

/-- The `before` bill at the end-to-end example inputs
(`pic = 30`, three-phase, `consumption = 1000`, `n_ucs = 1`). -/
def contaAntesExample : Bill :=
  ⟨748.8, 95.03, 30, 106.47, 980.3⟩

/-- The `after` bill at the end-to-end example inputs with a 20% discount. -/
def contaDepoisExample : Bill :=
  ⟨748.8, 95.03, 30, 106.47, 830.54⟩

/-- Whether a bill computation succeeded. -/
def exceptIsOk : Except String Bill → Bool
  | .ok _ => true
  | .error _ => false

/-- The character for a single decimal digit. -/
def digitChar (n : ℕ) : Char := Char.ofNat (48 + n)

/-- Decimal digits of a natural number, least significant first, with fuel. -/
def natToRevDigitsAux : ℕ → ℕ → List Char
  | 0, _ => []
  | fuel + 1, n => if n = 0 then [] else digitChar (n % 10) :: natToRevDigitsAux fuel (n / 10)

/-- Decimal digit characters of a natural number, most significant first. -/
def natDigits (n : ℕ) : List Char :=
  if n = 0 then ['0'] else (natToRevDigitsAux (n + 1) n).reverse

/-- Insert a separator after every group of three characters, counting from the
right; the input is already reversed. -/
def groupAux : List Char → ℕ → List Char
  | [], _ => []
  | c :: cs, k => if k = 3 then '.' :: c :: groupAux cs 1 else c :: groupAux cs (k + 1)

/-- Group digit characters in threes from the right with `.` separators
(the result of replacing Python's `,` thousands separators by `.`). -/
def groupThousands (ds : List Char) : List Char := (groupAux ds.reverse 0).reverse

/-- The unsigned part of `TextFormatter.format_money_br` (line 80): the value
rounded to 2 decimal places, with `.` grouping the thousands and `,` before
the two decimal digits. -/
def formatAbsChars (value : ℚ) : List Char :=
  let cents := roundHalfEven (value * 100)
  let m := cents.natAbs
  let intPart := m / 100
  let fracPart := m % 100
  groupThousands (natDigits intPart) ++ ',' :: [digitChar (fracPart / 10), digitChar (fracPart % 10)]

/-- `TextFormatter.format_money_br` (lines 77-80): Python's `f"{value:,.2f}"`
with `,`/`.` swapped, idealized to exact rational rounding; the sign is
emitted before the digits for negative values. -/
def format_money_br (value : ℚ) : String :=
  String.mk ((if value < 0 then ['-'] else []) ++ formatAbsChars value)

/-- Identifier for each textual placeholder rule of `_update_text_shape`
(lines 276-435), in source order. -/
inductive RuleId
  | cliente | data | xx | yy
  | aaaa | aaab | bbbb | aBBa | cccc
  | dddd | dddb | eeee | eeeb | ffff | gggg
  | hhhh | iiii | cdcd | cici
deriving DecidableEq

/-- Which value a placeholder rule renders into the shape. -/
inductive FieldSel
  | clienteName | currentDate | discountPct
  | totalAntes | minimoAntes | energiaDepois
  | savings | savings12 | savings60
  | energiaAntes | iluminacaoAntes | impostosAntes
deriving DecidableEq

/-- The update a matched rule performs: which rule fired, which value it
renders, and the font name, size and centering passed to
`TextFormatter.update_text_shape`. -/
structure UpdateAction where
  rule : RuleId
  field : FieldSel
  font : String
  size : ℕ
  centerAlign : Bool
deriving DecidableEq

/-- Python's `text.startswith(pat)` on the character list of `text`. -/
def textStartsWith (text : List Char) (pat : String) : Bool :=
  pat.toList.isPrefixOf text

/-- The first `if` of `_update_text_shape` (lines 276-283): the CLIENTE
placeholder, checked independently of the rest. -/
def chainCliente (text : List Char) : Option UpdateAction :=
  if textStartsWith text "CLIENTE: PPPPPP" then
    some ⟨.cliente, .clienteName, "Arial", 24, false⟩
  else none

/-- The ordered placeholder catalog of the second `if`/`elif` cascade of
`_update_text_shape` (lines 285-435), in source order: each entry is the
sentinel pattern and the update applied when the shape text starts with it. -/
def catalogRules : List (String × UpdateAction) :=
  [("DATA: DDDDDDD", ⟨.data, .currentDate, "Arial", 24, false⟩),
   ("XX%", ⟨.xx, .discountPct, "Inter Bold", 20, true⟩),
   ("YY%", ⟨.yy, .discountPct, "Inter Bold", 21, true⟩),
   ("R$ AAAA", ⟨.aaaa, .totalAntes, "Inter Bold", 26, true⟩),
   ("R$ AAAB", ⟨.aaab, .totalAntes, "Inter Bold", 21, true⟩),
   ("R$ BBBB", ⟨.bbbb, .minimoAntes, "Inter Bold", 21, true⟩),
   (" R$ aBBa", ⟨.aBBa, .minimoAntes, "Inter", 21, true⟩),
   ("R$ CCCC", ⟨.cccc, .energiaDepois, "Inter Bold", 21, true⟩),
   ("R$ DDDD", ⟨.dddd, .savings, "Inter Bold", 21, true⟩),
   ("R$ DDDB", ⟨.dddb, .savings, "Inter Bold", 21, true⟩),
   ("R$ EEEE", ⟨.eeee, .savings, "Inter Bold", 37, true⟩),
   ("R$ EEEB", ⟨.eeeb, .savings, "Inter Bold", 21, true⟩),
   ("R$ FFFF", ⟨.ffff, .savings12, "Inter Bold", 37, true⟩),
   ("R$ GGGG", ⟨.gggg, .savings60, "Inter Bold", 37, true⟩),
   ("R$ HHHH", ⟨.hhhh, .energiaAntes, "Inter", 21, true⟩),
   ("R$ IIII", ⟨.iiii, .iluminacaoAntes, "Inter", 21, true⟩),
   ("R$ CDCD", ⟨.cdcd, .minimoAntes, "Inter", 21, true⟩),
   ("R$ CICI", ⟨.cici, .impostosAntes, "Inter", 21, true⟩)]

/-- First rule whose pattern the text starts with, in order: the `elif`
cascade's first-match-wins semantics. -/
def firstMatch (text : List Char) : List (String × UpdateAction) → Option UpdateAction
  | [] => none
  | (pat, act) :: rest =>
    if textStartsWith text pat then some act else firstMatch text rest

/-- The second `if`/`elif` cascade of `_update_text_shape` (lines 285-435),
from the DATA placeholder on: first match wins, at most one rule fires. -/
def chainMain (text : List Char) : Option UpdateAction := firstMatch text catalogRules

/-- All placeholder updates `_update_text_shape` applies to a shape whose
current text is `text`: the CLIENTE check and the main cascade, in order. -/
def dispatch (text : List Char) : List UpdateAction :=
  (chainCliente text).toList ++ (chainMain text).toList

/-- Python's whitespace test for `str.strip` (the ASCII whitespace relevant
to placeholder text). -/
def isSpaceChar (c : Char) : Bool :=
  (c == ' ') || (c == '\t') || (c == '\n') || (c == '\r') || (c == '\x0b') || (c == '\x0c')

/-- Python's `text.strip()`: removes leading and trailing whitespace. -/
def stripChars (l : List Char) : List Char :=
  ((l.dropWhile isSpaceChar).reverse.dropWhile isSpaceChar).reverse

/-- A slide shape as seen by `_update_slide` (lines 252-264): its type flag,
text-frame flag, current text, and an abstract internal text-frame state
(the external document model is out of scope and kept opaque). -/
structure Shape (α : Type) where
  isTextBox : Bool
  has_text_frame : Bool
  text : List Char
  frame : α
deriving DecidableEq

/-- Run the updates a shape's text dispatches to, in order, against an
abstract updater `upd` that returns the new frame state and, possibly, a
raised error; a raised error aborts the remaining updates of this shape
(the exception propagates to the handler of `_update_text_shape`). -/
def runActs {α : Type} (upd : α → UpdateAction → α × Option String) :
    α → List UpdateAction → α × Option String
  | fr, [] => (fr, none)
  | fr, a :: rest =>
    match upd fr a with
    | (fr', none) => runActs upd fr' rest
    | (fr', some e) => (fr', some e)

/-- `PowerPointUpdater._update_text_shape` (lines 266-440): dispatch on the
shape's text and apply the matched updates inside `try`; an exception is
caught and recorded (`logger.error`), never propagated. -/
def _update_text_shape {α : Type} (upd : α → UpdateAction → α × Option String)
    (sh : Shape α) (text : List Char) : Shape α × List String :=
  match runActs upd sh.frame (dispatch text) with
  | (fr', none) => ({ sh with frame := fr' }, [])
  | (fr', some e) => ({ sh with frame := fr' }, [e])

/-- `PowerPointUpdater._update_slide` (lines 244-264): process every shape of
the slide in order; only text-box shapes with a text frame are updated, with
their text stripped before matching. -/
def _update_slide {α : Type} (upd : α → UpdateAction → α × Option String) :
    List (Shape α) → List (Shape α) × List String
  | [] => ([], [])
  | sh :: rest =>
    let r :=
      if sh.isTextBox && sh.has_text_frame then
        _update_text_shape upd sh (stripChars sh.text)
      else (sh, [])
    let rr := _update_slide upd rest
    (r.1 :: rr.1, r.2 ++ rr.2)

/-- An updater that always raises, to witness error isolation. -/
def updBoom : ℕ → UpdateAction → ℕ × Option String := fun fr _ => (fr + 1, some "boom")

/-- A concrete text-box shape whose text matches the `R$ AAAB` rule. -/
def shEx : Shape ℕ := ⟨true, true, "R$ AAAB extra".toList, 0⟩

/-- Concrete values of the derived ENEL CE rates. -/
theorem enelRates_eq :
    enelRates = ⟨0.7222, 0.9503, 316171 / 380000, 0.832, 0.1183⟩ := by
  simp only [enelRates, calculate_derived_rates, TarifaConstants.TE_ENEL_CE,
    TarifaConstants.TUSD_ENEL_CE, TarifaConstants.ICMS, TarifaConstants.PISCOF,
    round4, roundHalfEven, DerivedRates.mk.injEq]
  norm_num

/-- The `before` bill at the end-to-end example inputs, computed. -/
theorem conta_antes_ok :
    calculate_bill_before 30 "Trifásico" 1000 1 = .ok contaAntesExample := by
  simp only [calculate_bill_before, get_tarifas, enelRates_eq, contaAntesExample]
  norm_num

/-- The `after` bill at the end-to-end example inputs with 20% discount, computed. -/
theorem conta_depois_ok :
    calculate_bill_after 30 "Trifásico" 1000 1 20 = .ok contaDepoisExample := by
  simp only [calculate_bill_after, calculate_bill_before, get_tarifas, enelRates_eq,
    discountBill, Except.map, contaDepoisExample]
  norm_num

/-- Running an empty update list leaves the frame alone and raises nothing. -/
theorem runActs_nil {α : Type} (upd : α → UpdateAction → α × Option String) (fr : α) :
    runActs upd fr [] = (fr, none) := rfl

/-- Unfolding one step of `runActs`. -/
theorem runActs_cons {α : Type} (upd : α → UpdateAction → α × Option String)
    (fr : α) (a : UpdateAction) (rest : List UpdateAction) :
    runActs upd fr (a :: rest) =
      match upd fr a with
      | (fr', none) => runActs upd fr' rest
      | (fr', some e) => (fr', some e) := rfl

/-- Head-character agreement: if a text starts with a pattern whose first
character is `p`, the text's first character is `p`. -/
theorem textStartsWith_head {p : Char} {ps : List Char} {s : String} {c : Char}
    {ts : List Char} (hs : s.toList = p :: ps)
    (h : textStartsWith (c :: ts) s = true) : p = c := by
  rw [textStartsWith, hs] at h
  rw [show (p :: ps).isPrefixOf (c :: ts) = ((p == c) && ps.isPrefixOf ts) from rfl,
    Bool.and_eq_true] at h
  exact eq_of_beq h.1

/-- The main cascade never fires on text starting with `'C'`: every one of its
patterns starts with a different character. -/
theorem chainMain_C (ts : List Char) : chainMain ('C' :: ts) = none := rfl

/-- A character surviving `dropWhile` at the front does not satisfy the
predicate. -/
theorem dropWhile_head_false {p : Char → Bool} :
    ∀ (l : List Char) {c : Char} {rest : List Char},
      l.dropWhile p = c :: rest → p c = false := by
  intro l
  induction l with
  | nil => intro c rest h; exact List.noConfusion h
  | cons x xs ih =>
    intro c rest h
    rw [List.dropWhile_cons] at h
    split_ifs at h with hx
    · exact ih h
    · cases h; exact Bool.eq_false_iff.mpr hx

/-- `dropWhile` does not touch a final element that fails the predicate. -/
theorem dropWhile_append_last {p : Char → Bool} {c : Char} (hc : p c = false) :
    ∀ xs : List Char, (xs ++ [c]).dropWhile p = xs.dropWhile p ++ [c] := by
  intro xs
  induction xs with
  | nil => simp [List.dropWhile_cons, hc]
  | cons x xs ih =>
    by_cases hx : p x = true
    · simp [List.dropWhile_cons, hx, ih]
    · simp [List.dropWhile_cons, hx]

/-- The first character of a stripped text is never whitespace. -/
theorem stripChars_head_false :
    ∀ (l : List Char) {c : Char} {rest : List Char},
      stripChars l = c :: rest → isSpaceChar c = false := by
  intro l c rest h
  rw [stripChars] at h
  cases hm : l.dropWhile isSpaceChar with
  | nil => rw [hm] at h; simp at h
  | cons c0 m =>
    have hc0 : isSpaceChar c0 = false := dropWhile_head_false l hm
    rw [hm, show (c0 :: m).reverse = m.reverse ++ [c0] from by simp,
      dropWhile_append_last hc0, List.reverse_append] at h
    simp only [List.reverse_cons, List.reverse_nil, List.nil_append,
      List.singleton_append, List.cons.injEq] at h
    rw [← h.1]
    exact hc0

/-- Stripped text never starts with the leading-space pattern of the
`" R$ aBBa"` rule. -/
theorem not_startsWith_aBBa (l : List Char) :
    textStartsWith (stripChars l) " R$ aBBa" = false := by
  cases hs : stripChars l with
  | nil => decide
  | cons c rest =>
    have hc : isSpaceChar c = false := stripChars_head_false l hs
    rw [show textStartsWith (c :: rest) " R$ aBBa"
        = ((' ' == c) && ("R$ aBBa".toList.isPrefixOf rest)) from rfl]
    have hne : (' ' == c) = false := by
      rcases Bool.eq_false_or_eq_true (' ' == c) with h | h
      · exfalso
        rw [← eq_of_beq h] at hc
        exact absurd hc (by decide)
      · exact h
    rw [hne, Bool.false_and]

/-- A successful first match comes from some rule of the table whose pattern
the text starts with. -/
theorem firstMatch_mem {text : List Char} :
    ∀ (rules : List (String × UpdateAction)) (a : UpdateAction),
      firstMatch text rules = some a →
      ∃ pat : String, (pat, a) ∈ rules ∧ textStartsWith text pat = true := by
  intro rules
  induction rules with
  | nil => intro a h; exact Option.noConfusion h
  | cons r rest ih =>
    intro a h
    obtain ⟨pat, act⟩ := r
    rw [firstMatch] at h
    split_ifs at h with hsw
    · rw [Option.some.injEq] at h
      subst h
      exact ⟨pat, List.mem_cons_self _ _, hsw⟩
    · obtain ⟨pat2, hmem, hsw2⟩ := ih a h
      exact ⟨pat2, List.mem_cons_of_mem _ hmem, hsw2⟩

/-- C1 counterexample: at the concrete before-bill of the end-to-end example and
`discountPercent = 100`, the after breakdown's `valor em energia` is the
undiscounted `before` energy cost (748.8), not `before.energyCost * (1 - 100/100) = 0`:
line 211 of the source returns `energy_cost`, not `energy_cost_discounted`. -/
theorem claim_C1_cex :
    calculate_bill_before 30 "Trifásico" 1000 1 = .ok contaAntesExample
      ∧ (discountBill contaAntesExample 100).valor_em_energia
          ≠ contaAntesExample.valor_em_energia * (1 - 100 / 100) := by
  refine ⟨conta_antes_ok, ?_⟩
  simp only [discountBill, contaAntesExample]
  norm_num

/-- C1 (amended): `computeAfter` copies `taxes`, `minimumCost`,
`publicIlluminationCost` AND `energyCost` unchanged from `before` (the returned
`energyCost` field is not discounted, so `computeAfter(before, 100).energyCost`
equals `before.energyCost`), and its `total` equals
`before.taxes + before.publicIlluminationCost + before.minimumCost +
before.energyCost * (1 - discountPercent/100)`. -/
theorem claim_C1 (before : Bill) (d : ℚ) (h0 : 0 ≤ d) (h100 : d ≤ 100) :
    (discountBill before d).impostos = before.impostos
  ∧ (discountBill before d).custo_minimo = before.custo_minimo
  ∧ (discountBill before d).iluminacao_publica = before.iluminacao_publica
  ∧ (discountBill before d).valor_em_energia = before.valor_em_energia
  ∧ (discountBill before d).total
      = before.impostos + before.iluminacao_publica + before.custo_minimo
        + before.valor_em_energia * (1 - d / 100) :=
  ⟨rfl, rfl, rfl, rfl, rfl⟩

/-- Witness for C1 at the concrete example bill and a 20% discount. -/
theorem claim_C1_witness :
    (discountBill contaAntesExample 20).total
      = contaAntesExample.impostos + contaAntesExample.iluminacao_publica
        + contaAntesExample.custo_minimo
        + contaAntesExample.valor_em_energia * (1 - 20 / 100) :=
  (claim_C1 contaAntesExample 20 (by norm_num) (by norm_num)).2.2.2.2

/-- C2 counterexample: with the fixed constants, the derived supplied tariff is
0.9503, which is not approximately 0.9528 (it misses by 0.0025, far beyond any
4-decimal tolerance), and the before minimum cost is 95.03, not approximately
95.28. -/
theorem claim_C2_cex :
    enelRates.tarifa_fornecida = 0.9503
  ∧ ¬ |enelRates.tarifa_fornecida - 0.9528| < 1 / 1000
  ∧ calculate_bill_before 30 "Trifásico" 1000 1 = .ok contaAntesExample
  ∧ ¬ |contaAntesExample.custo_minimo - 95.28| < 1 / 10 := by
  refine ⟨by rw [enelRates_eq], fun h => ?_, conta_antes_ok, fun h => ?_⟩
  · rw [enelRates_eq, abs_lt] at h
    norm_num at h
  · rw [abs_lt] at h
    simp only [contaAntesExample] at h
    norm_num at h

/-- C2 (amended): with constants `TE=0.27291`, `TUSD=0.44929`, `ICMS=0.2`,
`PISCOF=0.05` and inputs three-phase, 1000 kWh, 1 unit, public illumination 30,
discount 20%: the supplied tariff is 0.9503 (not 0.9528), the before minimum
cost is 95.03 (not 95.28), and the after total is strictly less than the
before total. -/
theorem claim_C2 :
    enelRates.tarifa_fornecida = 0.9503
  ∧ calculate_bill_before 30 "Trifásico" 1000 1 = .ok contaAntesExample
  ∧ contaAntesExample.custo_minimo = 95.03
  ∧ calculate_bill_after 30 "Trifásico" 1000 1 20 = .ok contaDepoisExample
  ∧ contaDepoisExample.total < contaAntesExample.total := by
  refine ⟨by rw [enelRates_eq], conta_antes_ok, rfl, conta_depois_ok, ?_⟩
  simp only [contaAntesExample, contaDepoisExample]
  norm_num

/-- C3: for any base constants, the derived rates satisfy exactly the formulas
of the spec: supplied = round4(applied / ((1-icms)(1-pisCofins))), shared
injected = te/((1-icms)(1-pisCofins)) + tusd/(1-pisCofins) unrounded, real
injected = round4(shared), and non-offsettable taxes = supplied - real
injected; consequently supplied - realInjected = nonOffsettableTaxes exactly. -/
theorem claim_C3 (te tusd icms piscof : ℚ) :
    (calculate_derived_rates te tusd icms piscof).tarifa_fornecida
        = round4 ((te + tusd) / ((1 - icms) * (1 - piscof)))
  ∧ (calculate_derived_rates te tusd icms piscof).tarifa_injetada_compartilhada
        = te / ((1 - icms) * (1 - piscof)) + tusd / (1 - piscof)
  ∧ (calculate_derived_rates te tusd icms piscof).tarifa_injetada_real
        = round4 (calculate_derived_rates te tusd icms piscof).tarifa_injetada_compartilhada
  ∧ (calculate_derived_rates te tusd icms piscof).impostos_n_compoensaveis
        = (calculate_derived_rates te tusd icms piscof).tarifa_fornecida
          - (calculate_derived_rates te tusd icms piscof).tarifa_injetada_real
  ∧ (calculate_derived_rates te tusd icms piscof).tarifa_fornecida
      - (calculate_derived_rates te tusd icms piscof).tarifa_injetada_real
        = (calculate_derived_rates te tusd icms piscof).impostos_n_compoensaveis :=
  ⟨rfl, rfl, rfl, rfl, rfl⟩

/-- C4: for every nonnegative public illumination cost and consumption, every
unit count at least 1 and every recognized connection type, the before
calculation succeeds and returns
`energyCost = (consumption - units*100) * realInjectedTariff`,
`taxes = (consumption - units*100) * nonOffsettableTaxes`,
`total = energyCost + minimumCost + publicIllumination + taxes`, and both
energyCost and taxes are negative when `consumption < units*100`. -/
theorem claim_C4 (pic : ℚ) (disp : String) (cons : ℚ) (n : ℤ)
    (hpic : 0 ≤ pic) (hcons : 0 ≤ cons) (hn : 1 ≤ n)
    (hdisp : disp = "Trifásico" ∨ disp = "Monofásico" ∨ disp = "Bifásico") :
    ∃ b : Bill, calculate_bill_before pic disp cons n = .ok b
      ∧ b.valor_em_energia = (cons - (n : ℚ) * 100) * enelRates.tarifa_injetada_real
      ∧ b.impostos = (cons - (n : ℚ) * 100) * enelRates.impostos_n_compoensaveis
      ∧ b.total = b.valor_em_energia + b.custo_minimo + b.iluminacao_publica + b.impostos
      ∧ (cons < (n : ℚ) * 100 → b.valor_em_energia < 0 ∧ b.impostos < 0) := by
  have hreal : (0 : ℚ) < enelRates.tarifa_injetada_real := by rw [enelRates_eq]; norm_num
  have himp : (0 : ℚ) < enelRates.impostos_n_compoensaveis := by rw [enelRates_eq]; norm_num
  rcases hdisp with h | h | h <;> subst h <;>
    refine ⟨_, rfl, rfl, rfl, rfl, fun hlt => ⟨?_, ?_⟩⟩ <;>
    first
      | (show (cons - (n : ℚ) * 100) * enelRates.tarifa_injetada_real < 0
         exact mul_neg_of_neg_of_pos (by linarith) hreal)
      | (show (cons - (n : ℚ) * 100) * enelRates.impostos_n_compoensaveis < 0
         exact mul_neg_of_neg_of_pos (by linarith) himp)

/-- Witness for C4 at `pic = 30`, three-phase, 50 kWh (below the 100 kWh
allowance of one unit), 1 unit: the calculation still succeeds. -/
theorem claim_C4_witness :
    exceptIsOk (calculate_bill_before 30 "Trifásico" 50 1) = true := by
  obtain ⟨b, hb, -, -, -, -⟩ :=
    claim_C4 30 "Trifásico" 50 1 (by norm_num) (by norm_num) (by norm_num) (Or.inl rfl)
  rw [hb]
  rfl

/-- C5: the before calculation returns
`minimumCost = allowance * unitCount * suppliedTariff` with allowance 100 for
`Trifásico` (three-phase), 50 for `Bifásico` (two-phase) and 30 for
`Monofásico` (single-phase), and fails with the invalid-connection error for
every other string, producing no breakdown. -/
theorem claim_C5 (pic cons : ℚ) (n : ℤ) (disp : String) :
    (calculate_bill_before pic "Trifásico" cons n).map Bill.custo_minimo
        = .ok (100 * (n : ℚ) * enelRates.tarifa_fornecida)
  ∧ (calculate_bill_before pic "Bifásico" cons n).map Bill.custo_minimo
        = .ok (50 * (n : ℚ) * enelRates.tarifa_fornecida)
  ∧ (calculate_bill_before pic "Monofásico" cons n).map Bill.custo_minimo
        = .ok (30 * (n : ℚ) * enelRates.tarifa_fornecida)
  ∧ (disp ≠ "Trifásico" → disp ≠ "Monofásico" → disp ≠ "Bifásico" →
      calculate_bill_before pic disp cons n = .error "Custo de disponibilidade inválido.") := by
  refine ⟨rfl, rfl, rfl, fun h1 h2 h3 => ?_⟩
  simp only [calculate_bill_before]
  rw [if_neg h1, if_neg h2, if_neg h3]

/-- Witness for C5: an unrecognized connection type is rejected with the
invalid-connection error. -/
theorem claim_C5_witness :
    calculate_bill_before 0 "Quadrifásico" 0 1 = .error "Custo de disponibilidade inválido." :=
  (claim_C5 0 0 1 "Quadrifásico").2.2.2 (by decide) (by decide) (by decide)

/-- C6: a zero discount is an identity on the total: whenever the before
calculation returns a bill `b`, the after calculation with discount 0 returns
`discountBill b 0`, whose total equals `b.total` exactly. -/
theorem claim_C6 (pic : ℚ) (disp : String) (cons : ℚ) (n : ℤ) (b : Bill)
    (h : calculate_bill_before pic disp cons n = .ok b) :
    calculate_bill_after pic disp cons n 0 = .ok (discountBill b 0)
      ∧ (discountBill b 0).total = b.total := by
  refine ⟨by simp only [calculate_bill_after, h, Except.map], ?_⟩
  simp only [calculate_bill_before] at h
  split_ifs at h <;>
    first
      | exact Except.noConfusion h
      | (rw [Except.ok.injEq] at h
         subst h
         simp only [discountBill]
         ring)

/-- Witness for C6 at the end-to-end example inputs. -/
theorem claim_C6_witness :
    calculate_bill_after 30 "Trifásico" 1000 1 0 = .ok (discountBill contaAntesExample 0)
      ∧ (discountBill contaAntesExample 0).total = contaAntesExample.total :=
  claim_C6 30 "Trifásico" 1000 1 contaAntesExample conta_antes_ok

/-- C7: the money formatter renders with `.` as thousands separator, `,` as
decimal separator and exactly two decimals: `format(1234.5) = "1.234,50"` and
`format(-7.1) = "-7,10"`; for every negative input the output is the minus
sign followed directly by the digit rendering of the magnitude. -/
theorem claim_C7 :
    format_money_br 1234.5 = "1.234,50"
  ∧ format_money_br (-7.1) = "-7,10"
  ∧ ∀ x : ℚ, x < 0 → (format_money_br x).data = '-' :: formatAbsChars x := by
  refine ⟨?_, ?_, fun x hx => ?_⟩
  · have h : roundHalfEven (1234.5 * 100) = 123450 := by norm_num [roundHalfEven]
    simp only [format_money_br, formatAbsChars, h]
    rw [if_neg (by norm_num : ¬ (1234.5 : ℚ) < 0)]
    decide
  · have h : roundHalfEven ((-7.1) * 100) = -710 := by norm_num [roundHalfEven]
    simp only [format_money_br, formatAbsChars, h]
    rw [if_pos (by norm_num : (-7.1 : ℚ) < 0)]
    decide
  · simp only [format_money_br, if_pos hx]
    rfl

/-- Witness for C7 at the concrete negative input -7.1. -/
theorem claim_C7_witness :
    (format_money_br (-7.1)).data = '-' :: formatAbsChars (-7.1) :=
  claim_C7.2.2 (-7.1) (by norm_num)

/-- C8: placeholder dispatch is deterministic first-match-wins: on the text
`"R$ AAAB extra"` exactly the `R$ AAAB` rule fires, rendering the before
total at font size 21, and the `R$ AAAA` rule never fires on it; moreover at
most one rule's update is ever applied to any shape text. -/
theorem claim_C8 :
    dispatch "R$ AAAB extra".toList
        = [⟨.aaab, .totalAntes, "Inter Bold", 21, true⟩]
  ∧ (∀ a ∈ dispatch "R$ AAAB extra".toList, a.rule ≠ RuleId.aaaa)
  ∧ ∀ text : List Char, (dispatch text).length ≤ 1 := by
  refine ⟨by decide, by decide, fun text => ?_⟩
  unfold dispatch
  cases hC : chainCliente text with
  | none => cases chainMain text <;> simp [Option.toList]
  | some a =>
    have hsw : textStartsWith text "CLIENTE: PPPPPP" = true := by
      rw [chainCliente] at hC
      split_ifs at hC with hcond
      exact hcond
    obtain ⟨ts, rfl⟩ : ∃ ts, text = 'C' :: ts := by
      cases text with
      | nil => exact absurd hsw (by decide)
      | cons c ts =>
        have hc := textStartsWith_head rfl hsw
        subst hc
        exact ⟨ts, rfl⟩
    rw [chainMain_C]
    simp [Option.toList]

/-- Witness for C8 instantiating the universally quantified part at the text
`"R$ AAAB extra"` (which carries the membership hypothesis of the second
conjunct at a concrete action). -/
theorem claim_C8_witness :
    (⟨RuleId.aaab, FieldSel.totalAntes, "Inter Bold", 21, true⟩ : UpdateAction).rule
        ≠ RuleId.aaaa
  ∧ (dispatch "R$ AAAB extra".toList).length ≤ 1 :=
  ⟨claim_C8.2.1 ⟨RuleId.aaab, FieldSel.totalAntes, "Inter Bold", 21, true⟩ (by decide),
    claim_C8.2.2 "R$ AAAB extra".toList⟩

/-- C9: a shape whose stripped text matches no placeholder is returned
completely unchanged with no error; an error raised while updating a matched
shape is caught and recorded instead of propagating; and slide processing is
per-shape independent: the shapes of any batch `l1 ++ l2` are all processed,
the results and recorded errors of `l2` being unaffected by any failure
inside `l1`, so one malformed shape never aborts the render. -/
theorem claim_C9 {α : Type} (upd : α → UpdateAction → α × Option String) :
    (∀ (sh : Shape α) (text : List Char),
      dispatch text = [] → _update_text_shape upd sh text = (sh, []))
  ∧ (∀ (sh : Shape α) (text : List Char) (a : UpdateAction) (fr' : α) (e : String),
      dispatch text = [a] → upd sh.frame a = (fr', some e) →
      _update_text_shape upd sh text = ({ sh with frame := fr' }, [e]))
  ∧ (∀ l1 l2 : List (Shape α),
      _update_slide upd (l1 ++ l2)
        = ((_update_slide upd l1).1 ++ (_update_slide upd l2).1,
           (_update_slide upd l1).2 ++ (_update_slide upd l2).2)) := by
  refine ⟨fun sh text h => ?_, fun sh text a fr' e h hup => ?_, fun l1 l2 => ?_⟩
  · rw [_update_text_shape, h, runActs_nil]
  · rw [_update_text_shape, h, runActs_cons, hup]
  · induction l1 with
    | nil => simp [_update_slide]
    | cons sh rest ih => simp [_update_slide, ih]

/-- Witness for C9: with an always-raising updater, an unmatched text leaves
the shape untouched, a matched text records the error, and a two-shape batch
is processed per shape. -/
theorem claim_C9_witness :
    _update_text_shape updBoom shEx [] = (shEx, [])
  ∧ _update_text_shape updBoom shEx (stripChars shEx.text)
      = ({ shEx with frame := 1 }, ["boom"])
  ∧ _update_slide updBoom ([shEx] ++ [shEx])
      = ((_update_slide updBoom [shEx]).1 ++ (_update_slide updBoom [shEx]).1,
         (_update_slide updBoom [shEx]).2 ++ (_update_slide updBoom [shEx]).2) :=
  ⟨(claim_C9 updBoom).1 shEx [] rfl,
    (claim_C9 updBoom).2.1 shEx (stripChars shEx.text)
      ⟨RuleId.aaab, FieldSel.totalAntes, "Inter Bold", 21, true⟩ 1 "boom"
      (by decide) rfl,
    (claim_C9 updBoom).2.2 [shEx] [shEx]⟩

/-- C10: the `" R$ aBBa"` rule (leading space) is unreachable: shape text is
stripped before matching, a stripped text never starts with a space, so no
dispatched update ever comes from that rule. -/
theorem claim_C10 (raw : List Char) (a : UpdateAction)
    (ha : a ∈ dispatch (stripChars raw)) : a.rule ≠ RuleId.aBBa := by
  intro hrule
  rcases List.mem_append.mp ha with h | h
  · rw [chainCliente] at h
    split_ifs at h
    · simp only [Option.toList_some, List.mem_singleton] at h
      subst h
      exact absurd hrule (by decide)
    · simp at h
  · cases hm : chainMain (stripChars raw) with
    | none => rw [hm] at h; simp at h
    | some b =>
      rw [hm] at h
      simp only [Option.toList_some, List.mem_singleton] at h
      subst h
      rw [chainMain] at hm
      obtain ⟨pat, hmem, hsw⟩ := firstMatch_mem catalogRules a hm
      simp only [catalogRules, List.mem_cons, List.not_mem_nil, or_false,
        Prod.mk.injEq] at hmem
      rcases hmem with ⟨hp, ha2⟩ | ⟨hp, ha2⟩ | ⟨hp, ha2⟩ | ⟨hp, ha2⟩ | ⟨hp, ha2⟩ |
        ⟨hp, ha2⟩ | ⟨hp, ha2⟩ | ⟨hp, ha2⟩ | ⟨hp, ha2⟩ | ⟨hp, ha2⟩ | ⟨hp, ha2⟩ |
        ⟨hp, ha2⟩ | ⟨hp, ha2⟩ | ⟨hp, ha2⟩ | ⟨hp, ha2⟩ | ⟨hp, ha2⟩ | ⟨hp, ha2⟩ |
        ⟨hp, ha2⟩ <;>
        subst ha2 <;>
          first
            | exact absurd hrule (by decide)
            | (subst hp
               rw [not_startsWith_aBBa raw] at hsw
               exact Bool.noConfusion hsw)

/-- Witness for C10 at the concrete stripped text `"R$ AAAB extra"` and the
action it dispatches to. -/
theorem claim_C10_witness :
    (⟨RuleId.aaab, FieldSel.totalAntes, "Inter Bold", 21, true⟩ : UpdateAction).rule
      ≠ RuleId.aBBa :=
  claim_C10 "R$ AAAB extra".toList
    ⟨RuleId.aaab, FieldSel.totalAntes, "Inter Bold", 21, true⟩ (by decide)
